import Mathlib

set_option maxHeartbeats 1000000
set_option maxRecDepth 20000

/-!
Verification development for the Homiakus/test_one24 motion-control firmware.

The repository contains three revisions of the same firmware:
  * src/arduino_main/src/main.cpp  (the "improved" single-file revision),
  * src/arduino copy/src/main.cpp  (the GyverPlanner single-file revision),
  * src/arduino/...                (the modular revision: stepper_control.cpp,
    commands.cpp, config.h).

Modelling conventions, used throughout:
  * Machine integers (int32_t step counters) are modelled as Int; uint32_t
    millisecond clocks as Nat.  None of the modelled runs approaches a wrap.
  * IEEE floats that can be NaN or infinite (move targets) are modelled by the
    FloatVal sum type with exact rationals for finite values; float-to-int
    conversion is truncation toward zero, as in C.
  * The GyverPlanner / GyverStepper2 libraries are external dependencies (not
    in this repository).  Their observable behaviour is modelled as follows:
    tick() advances the attached step counters along a trajectory supplied by
    an explicit environment value; ready() becomes true after an
    environment-supplied number of ticks; brake() stops motion at once;
    setTarget() only stores targets; reset() sets every attached step counter
    to zero.  The reset() semantics is the one documented by the repository
    itself (src/arduino copy/src/main.cpp lines 1132-1134 and 1218-1219:
    "planner.reset() resets all coordinates to 0").
  * Serial output is modelled as a list of Line values, one per println of
    the source; a line is classified by its leading token (RECEIVED, COMPLETE,
    ERROR, or informational).  Numeric payloads inside informational lines are
    elided; no theorem inspects the text of an informational line.
  * Each blocking while-loop of the source is modelled either by fuel-indexed
    structural recursion with the same per-iteration checks as the source, or,
    where no theorem depends on the iteration structure, by its observable
    outcome with the outcome chosen by the environment.
-/

/-- Serial output line, classified by its leading token. -/
inductive Line where
  | received
  | complete
  | error (text : String)
  | info (text : String)
deriving DecidableEq

/-- Terminal tokens of the protocol: COMPLETE, or any line beginning with ERROR. -/
def Line.isTerminal : Line → Bool
  | .complete => true
  | .error _ => true
  | _ => false

/-- Number of terminal tokens in an output stream. -/
def terminalCount (out : List Line) : Nat :=
  out.countP (fun l => l.isTerminal)

/-- Model of a C float value: NaN, the two infinities, or an exact finite value. -/
inductive FloatVal where
  | nan
  | inf
  | neginf
  | finite (val : Rat)
deriving DecidableEq

/-- Exact truncation toward zero of the product q * n, the C float-to-int32
conversion used when converting units to steps.  Int.tdiv truncates toward
zero and the denominator of a Rat is positive, so this equals trunc(q * n). -/
def truncMulToInt (q : Rat) (n : Nat) : Int :=
  (q.num * n).tdiv q.den

namespace Main

/-! Model of src/arduino_main/src/main.cpp. -/

/-- Error codes of enum ErrorCode (main.cpp lines 63-74). -/
inductive ErrorCode where
  | errNone
  | invalidPosition
  | invalidPin
  | timeout
  | emergencyStop
  | outOfBounds
  | bufferOverflow
  | invalidCommand
  | weightSensor
  | reservoirOverflow
deriving DecidableEq

/-- MAX_COMMAND_LENGTH (main.cpp line 29). -/
def MAX_COMMAND_LENGTH : Nat := 64

/-- HOMING_TIMEOUT_MS (main.cpp line 30). -/
def HOMING_TIMEOUT_MS : Nat := 30000

/-- MOVE_TIMEOUT_MS (main.cpp line 31). -/
def MOVE_TIMEOUT_MS : Nat := 60000

/-- WATCHDOG_TIMEOUT_MS (main.cpp line 33). -/
def WATCHDOG_TIMEOUT_MS : Nat := 600000

/-- Per-motor configuration, struct MotorConfig (main.cpp lines 84-103).
Pin numbers are omitted: the model addresses pins through the motor index. -/
structure MotorConfig where
  name : String
  maxSpeed : Nat
  acceleration : Nat
  homingSpeed : Nat
  isNPN : Bool
  alwaysOn : Bool
  stepsPerUnit : Nat
  maxSteps : Nat
  homeBackoff : Nat
  preBackoff : Nat
  minPosition : Rat
  maxPosition : Rat
  safeSpeed : Nat
deriving DecidableEq

/-- Configuration table, constexpr motors[NUM_MOTORS] (main.cpp lines 167-186). -/
def motors : Fin 5 → MotorConfig
  | ⟨0, _⟩ => ⟨"Multi(X)", 500, 500, 3000, false, true, 40, 16000, 1000, 1000, -200, 200, 300⟩
  | ⟨1, _⟩ => ⟨"Multizone(Y)", 200, 300, 40, true, true, 80, 16000, 200, 0, -100, 100, 150⟩
  | ⟨2, _⟩ => ⟨"RRight(Z)", 1000, 200, 10000, true, true, 200, 60000, 100, 60, -300, 0, 800⟩
  | ⟨3, _⟩ => ⟨"E0", 2000, 2000, 2000, true, false, 200, 16000, 200, 0, -50, 50, 1500⟩
  | ⟨4, _⟩ => ⟨"E1", 2000, 2000, 2000, true, false, 200, 16000, 200, 0, -50, 50, 1500⟩

/-- Control-pin table, constexpr controlPins (main.cpp lines 192-203): name only;
the physical pin number is not needed by any theorem. -/
def controlPins : Fin 10 → String
  | ⟨0, _⟩ => "PUMP"
  | ⟨1, _⟩ => "KL1"
  | ⟨2, _⟩ => "KL2"
  | ⟨3, _⟩ => "WASTE"
  | ⟨4, _⟩ => "ROTOR1"
  | ⟨5, _⟩ => "ROTOR2"
  | ⟨6, _⟩ => "ROTOR3"
  | ⟨7, _⟩ => "ROTOR4"
  | ⟨8, _⟩ => "HX711_SCK"
  | ⟨9, _⟩ => "HX711_DT"

/-- Global system state, struct SystemState (main.cpp lines 246-258), together
with the axis step counters (steppers[i].pos), the enable-line levels
(true = asserted, i.e. the physical pin driven LOW) and the control-pin levels.
The input buffer is modelled separately by the line reader. -/
structure SysState where
  motorsEnabled : Bool
  homingActive : Bool
  emergencyStop : Bool
  lastError : ErrorCode
  commandInProgress : Bool
  lastActivityTime : Nat
  pos : Fin 5 → Int
  enabled : Fin 5 → Bool
  ctrlPins : Fin 10 → Bool

/-- Boot state after setup() (main.cpp lines 1066-1127): positions zero,
all motors enabled by the final enableAllMotors() call, control pins LOW. -/
def bootState : SysState :=
  ⟨true, false, false, .errNone, false, 0, fun _ => 0, fun _ => true, fun _ => false⟩

/-- validateMotorPosition (main.cpp lines 343-353): index in range, value not
NaN and not infinite, and inside the closed envelope of the motor. -/
def validateMotorPosition (motor : Nat) (position : FloatVal) : Bool :=
  if h : motor < 5 then
    match position with
    | .nan => false
    | .inf => false
    | .neginf => false
    | .finite q =>
        decide ((motors ⟨motor, h⟩).minPosition ≤ q ∧ q ≤ (motors ⟨motor, h⟩).maxPosition)
  else false

/-- validatePinIndex (main.cpp lines 361-363). -/
def validatePinIndex (pinIndex : Int) : Bool :=
  decide (0 ≤ pinIndex ∧ pinIndex < 10)

/-- validateMove (main.cpp lines 394-406) with the lastError write performed by
isPositionSafe (lines 372-384) on the first failing axis. -/
def validateMove (positions : Fin 5 → FloatVal) (active : Fin 5 → Bool)
    (st : SysState) : Bool × SysState :=
  match (List.finRange 5).find? (fun i => active i && !(validateMotorPosition i.val (positions i))) with
  | some _ => (false, { st with lastError := .invalidPosition })
  | none => (true, st)

/-- toSteps (main.cpp lines 636-638): float multiply, then int32_t truncation.
Only reached with finite values; non-finite inputs are mapped to 0. -/
def toSteps (motor : Fin 5) (units : FloatVal) : Int :=
  match units with
  | .finite q => truncMulToInt q (motors motor).stepsPerUnit
  | _ => 0

/-- toUnits (main.cpp lines 649-652). -/
def toUnits (motor : Fin 5) (steps : Int) : Rat :=
  (steps : Rat) / ((motors motor).stepsPerUnit : Rat)

/-- enableAllMotors (main.cpp lines 687-702): refused under the emergency
latch, otherwise asserts every enable line. -/
def enableAllMotors (st : SysState) : SysState × List Line :=
  if st.emergencyStop then
    (st, [.error "Cannot enable motors - emergency stop active"])
  else
    ({ st with enabled := fun _ => true, motorsEnabled := true },
     [.info "All motors enabled"])

/-- disableTemporaryMotors (main.cpp lines 708-717): deasserts the enable line
of every motor that is not alwaysOn. -/
def disableTemporaryMotors (st : SysState) : SysState :=
  { st with
    enabled := fun i => if (motors i).alwaysOn then st.enabled i else false,
    motorsEnabled := false }

/-- controlPin (main.cpp lines 725-739): validate the index, then drive the
control pin and report. -/
def controlPin (pinIndex : Int) (value : Bool) (st : SysState) : SysState × List Line :=
  if h : 0 ≤ pinIndex ∧ pinIndex < 10 then
    let i : Fin 10 := ⟨pinIndex.toNat, by omega⟩
    ({ st with ctrlPins := Function.update st.ctrlPins i value },
     [.info ("Pin " ++ controlPins i ++ (if value then " ENABLED" else " DISABLED"))])
  else
    (st, [.error "Invalid pin index"])

/-- emergencyStop (main.cpp lines 446-468): latch, stop, deassert every enable
line, record the error.  The planner brake is reflected by the caller. -/
def emergencyStopAction (st : SysState) : SysState :=
  { st with
    emergencyStop := true,
    commandInProgress := false,
    homingActive := false,
    enabled := fun _ => false,
    lastError := .emergencyStop }

/-- Timeout manager, struct TimeoutManager (main.cpp lines 128-132). -/
structure TimeoutMgr where
  startTime : Nat
  timeoutDuration : Nat
  active : Bool
deriving DecidableEq

/-- isTimeoutExpired (main.cpp lines 428-433). -/
def isTimeoutExpired (tm : TimeoutMgr) (now : Nat) : Bool :=
  tm.active && decide (now - tm.startTime > tm.timeoutDuration)

/-- checkEmergency (main.cpp lines 474-493): watchdog, then operation timeout;
either one triggers emergencyStop(). -/
def checkEmergency (st : SysState) (tm : TimeoutMgr) (now : Nat) : SysState :=
  if now - st.lastActivityTime > WATCHDOG_TIMEOUT_MS then emergencyStopAction st
  else if isTimeoutExpired tm now then emergencyStopAction st
  else st

/-- Environment of one coordinated move: how the external GyverPlanner behaves
once setTarget has been issued.  traj k is the position vector after k calls
of tick(); ready() first holds after duration ticks.  One tick is one
millisecond of the modelled clock. -/
structure MoveEnv where
  duration : Nat
  traj : Nat → Fin 5 → Int

/-- Outcome classification of coordinatedMove. -/
inductive MoveOutcome where
  | rejectedEmergency
  | rejectedHoming
  | rejectedInvalid
  | noMovement
  | finished
  | aborted
deriving DecidableEq

/-- Result of coordinatedMove: final state, timeout manager, outcome, whether
planner.brake() was issued, whether the planner was engaged at all (pulses are
only ever emitted by planner ticks), and the serial output. -/
structure MoveResult where
  state : SysState
  tm : TimeoutMgr
  outcome : MoveOutcome
  braked : Bool
  plannerStarted : Bool
  out : List Line

/-- Target vector computed by coordinatedMove (main.cpp lines 788-806):
active axes get the converted target, inactive axes keep the current step
counter. -/
def moveTargets (positions : Fin 5 → FloatVal) (active : Fin 5 → Bool)
    (pos : Fin 5 → Int) : Fin 5 → Int :=
  fun i => if active i then toSteps i (positions i) else pos i

/-- Inner movement loop of coordinatedMove (main.cpp lines 823-839), as
fuel-indexed recursion.  Per iteration: exit if planner.ready(); tick();
brake and return on emergency or expired timeout (the code also clears the
timeout and the commandInProgress flag there, reflected by the caller reading
the returned flag); run checkEmergency when the clock is a multiple of 100 ms.
Returns (state, finished, braked). -/
def moveLoop (env : MoveEnv) (startTime : Nat) (tm : TimeoutMgr) :
    Nat → Nat → SysState → SysState × Bool × Bool
  | 0, _, st => (st, false, false)
  | fuel + 1, k, st =>
    if env.duration ≤ k then (st, true, false)
    else
      let st1 := { st with pos := env.traj (k + 1) }
      let now := startTime + k + 1
      if st1.emergencyStop || isTimeoutExpired tm now then (st1, false, true)
      else
        let st2 := if now % 100 = 0 then checkEmergency st1 tm now else st1
        moveLoop env startTime tm fuel (k + 1) st2

/-- Planner-engaged part of coordinatedMove (main.cpp lines 816-858): start
the 60-second timeout, run the movement loop; on completion clear the
timeout, deassert the temporary motors and print COMPLETE; on brake clear the
timeout and return without a terminal token. -/
def coordinatedMoveRun (env : MoveEnv) (now : Nat) (st3 : SysState)
    (tm1 : TimeoutMgr) (outPre : List Line) : MoveResult :=
  let r := moveLoop env now tm1 (env.duration + MOVE_TIMEOUT_MS + 2) 0 st3
  if r.2.1 then
    ⟨{ disableTemporaryMotors r.1 with commandInProgress := false },
     { tm1 with active := false }, .finished, false, true, outPre ++ [.complete]⟩
  else
    ⟨{ r.1 with commandInProgress := false }, { tm1 with active := false },
     .aborted, true, true, outPre⟩

/-- coordinatedMove (main.cpp lines 753-858). -/
def coordinatedMove (env : MoveEnv) (now : Nat) (positions : Fin 5 → FloatVal)
    (active : Fin 5 → Bool) (st : SysState) (tm : TimeoutMgr) : MoveResult :=
  if st.emergencyStop then
    ⟨st, tm, .rejectedEmergency, false, false, [.error "Emergency stop active"]⟩
  else if st.homingActive then
    ⟨st, tm, .rejectedHoming, false, false, [.error "Cannot move during homing"]⟩
  else
    let v := validateMove positions active st
    if v.1 = false then
      ⟨{ v.2 with lastError := .invalidPosition }, tm, .rejectedInvalid, false, false,
       [.error "Invalid position"]⟩
    else
      let st2 := { st with commandInProgress := true, lastActivityTime := now }
      let e := enableAllMotors st2
      let st3 := e.1
      let targets := moveTargets positions active st3.pos
      if decide (∃ i, active i = true ∧ targets i ≠ st3.pos i) = false then
        ⟨{ st3 with commandInProgress := false }, tm, .noMovement, false, false,
         e.2 ++ [.info "Already at target", .complete]⟩
      else
        coordinatedMoveRun env now st3 ⟨now, MOVE_TIMEOUT_MS, true⟩ e.2

/-- Environment of one homing invocation: endstop readings at the phase-2
check and during the seek loop, the seek trajectory and completion tick of
the black-box planner, the time consumed by the first two phases, and the
outcome of each of the up-to-three performBackoff calls. -/
structure HomeEnv where
  endstopStart : Fin 5 → Bool
  seekRead : Nat → Fin 5 → Bool
  seekTraj : Nat → Fin 5 → Int
  seekDone : Nat
  preMs : Nat
  backoffTimesOut : Fin 3 → Bool
  backoffStopped : Fin 3 → Fin 5 → Int

/-- performBackoff (main.cpp lines 871-890): run the planner to the given
targets; a 5-second bound or the emergency latch brakes it early, leaving the
environment-chosen positions.  Emergency cannot become set during homing
(nothing inside homeMotors writes the latch), so the entry value decides. -/
def performBackoff (env : HomeEnv) (j : Fin 3) (targets : Fin 5 → Int)
    (st : SysState) : SysState :=
  if st.emergencyStop then st
  else if env.backoffTimesOut j then { st with pos := env.backoffStopped j }
  else { st with pos := targets }

/-- Seek loop of homeMotors (main.cpp lines 991-1015), fuel-indexed.  Per
iteration: exit when planner.ready(); tick(); brake and break on emergency or
expired homing timeout; mark each flagged axis of index < 4 whose endstop
reads triggered; break when all flagged axes of index < 4 are marked. -/
def seekLoop (env : HomeEnv) (t0 : Nat) (tm : TimeoutMgr) (flags : Fin 5 → Bool) :
    Nat → Nat → (Fin 5 → Bool) → SysState → SysState × (Fin 5 → Bool)
  | 0, _, homed, st => (st, homed)
  | fuel + 1, k, homed, st =>
    if env.seekDone ≤ k then (st, homed)
    else
      let st1 := { st with pos := env.seekTraj (k + 1) }
      let now := t0 + env.preMs + k + 1
      if st1.emergencyStop || isTimeoutExpired tm now then (st1, homed)
      else
        let homed1 : Fin 5 → Bool := fun i =>
          homed i || (decide (i.val < 4) && flags i && env.seekRead (k + 1) i)
        if decide (∀ i : Fin 5, i.val < 4 → flags i = true → homed1 i = true) then
          (st1, homed1)
        else
          seekLoop env t0 tm flags fuel (k + 1) homed1 st1

/-- Result of homeMotors. -/
structure HomeResult where
  state : SysState
  tm : TimeoutMgr
  homed : Fin 5 → Bool
  out : List Line

/-- homeMotors (main.cpp lines 904-1056).  Phases: pre-backoff, move-away,
seek, final backoff with zeroing of homed axes; then the unconditional cleanup
clearTimeout(); planner.reset(), the latter setting every step counter to
zero (library semantics as documented by the repository, see the header
comment). -/
def homeMotors (env : HomeEnv) (now : Nat) (flags : Fin 5 → Bool)
    (st : SysState) (tm : TimeoutMgr) : HomeResult :=
  if st.emergencyStop then
    ⟨st, tm, fun _ => false, [.error "Emergency stop active"]⟩
  else if decide (∃ i, flags i = true) = false then
    ⟨st, tm, fun _ => false, [.error "No valid homing flags"]⟩
  else
    let st0 := { st with homingActive := true, commandInProgress := true,
                         lastActivityTime := now }
    let st1 := (enableAllMotors st0).1
    let tm1 : TimeoutMgr := ⟨now, HOMING_TIMEOUT_MS, true⟩
    let pre : Fin 5 → Int := fun i =>
      st1.pos i + (if decide (i.val < 4) && flags i && decide ((motors i).preBackoff > 0)
                   then ((motors i).preBackoff : Int) else 0)
    let needPre := decide (∃ i : Fin 5, i.val < 4 ∧ flags i = true ∧ (motors i).preBackoff > 0)
    let st2 := if needPre then performBackoff env 0 pre st1 else st1
    let away : Fin 5 → Int := fun i =>
      st2.pos i + (if decide (i.val < 4) && flags i && env.endstopStart i then 500 else 0)
    let needAway := decide (∃ i : Fin 5, i.val < 4 ∧ flags i = true ∧ env.endstopStart i = true)
    let st3 := if needAway then performBackoff env 1 away st2 else st2
    let sk := seekLoop env now tm1 flags (env.seekDone + HOMING_TIMEOUT_MS + 2) 0
                (fun _ => false) st3
    let st4 := sk.1
    let homed := sk.2
    let afterPhase4 :=
      if st4.emergencyStop then st4
      else
        let fin : Fin 5 → Int := fun i =>
          st4.pos i + (if decide (i.val < 4) && flags i && homed i &&
                          decide ((motors i).homeBackoff > 0)
                       then ((motors i).homeBackoff : Int) else 0)
        let needFin := decide (∃ i : Fin 5, i.val < 4 ∧ flags i = true ∧ homed i = true ∧
                                 (motors i).homeBackoff > 0)
        let st5 := if needFin then performBackoff env 2 fin st4 else st4
        { st5 with pos := fun i => if decide (i.val < 4) && flags i && homed i then 0
                                   else st5.pos i }
    ⟨{ afterPhase4 with pos := fun _ => 0, homingActive := false,
                        commandInProgress := false },
     { tm1 with active := false }, homed, [.complete]⟩

/-! Line reader of loop() (main.cpp lines 1174-1197).  The buffer is the list
of stored characters; its length is the write cursor inputBufferPos.  A byte
is stored only while the cursor is below MAX_COMMAND_LENGTH - 1; CR or LF
terminates the line, writes the NUL, raises commandReady, and — because the
dispatch and clearCommandBuffer() run in the same loop() iteration — hands the
accumulated C string to processCommand and memsets the buffer. -/

/-- Processing of one received byte.  Returns the new buffer and, when the
byte terminates a line, the C string handed to processCommand. -/
def feedChar (buf : List Char) (c : Char) : List Char × Option (List Char) :=
  let buf1 := if buf.length < MAX_COMMAND_LENGTH - 1 then buf ++ [c] else buf
  if c = '\n' ∨ c = '\r' then ([], some buf1) else (buf1, none)

/-- Processing of a byte sequence: the final buffer and every dispatched line. -/
def feedChars : List Char → List Char → List Char × List (List Char)
  | [], buf => (buf, [])
  | c :: rest, buf =>
    let r := feedChar buf c
    match r.2 with
    | none => feedChars rest r.1
    | some line =>
      let t := feedChars rest []
      (t.1, line :: t.2)

/-- Buffer contents reached by storing a byte sequence (the store-if-room part
of feedChar, iterated); used to state properties of feedChars. -/
def storeAll : List Char → List Char → List Char
  | [], buf => buf
  | c :: cs, buf => storeAll cs (if buf.length < MAX_COMMAND_LENGTH - 1 then buf ++ [c] else buf)

/-- Trailing CR and LF characters removed, for comparing a dispatched C string
with the line that was sent. -/
def stripTerm (l : List Char) : List Char :=
  (l.reverse.dropWhile (fun c => c = '\n' ∨ c = '\r')).reverse

/-! Command parsing of processCommand (main.cpp lines 1224-1428). -/

/-- Whitespace cleanup at the head of processCommand (main.cpp lines 1226-1238):
skip leading spaces, then remove CR, LF and spaces from the end. -/
def cleanCommand (command : List Char) : List Char :=
  let c1 := command.dropWhile (fun c => c = ' ')
  (c1.reverse.dropWhile (fun c => c = '\r' ∨ c = '\n' ∨ c = ' ')).reverse

/-- strtok-style tokenization on spaces: empty tokens do not occur. -/
def tokenizeAux : List Char → List Char → List (List Char)
  | [], acc => if acc = [] then [] else [acc.reverse]
  | c :: rest, acc =>
    if c = ' ' then
      if acc = [] then tokenizeAux rest []
      else acc.reverse :: tokenizeAux rest []
    else tokenizeAux rest (c :: acc)

/-- Tokens of an argument string. -/
def tokenize (s : List Char) : List (List Char) :=
  tokenizeAux s []

/-- Digits accumulated into a natural number. -/
def natOfDigits : List Char → Nat → Nat
  | [], acc => acc
  | c :: r, acc => natOfDigits r (acc * 10 + (c.toNat - 48))

/-- atof model: optional sign, integer digits, optional fraction digits;
anything unparsable yields 0, as atof does. -/
def atofModel (s : List Char) : Rat :=
  let s1 := s.dropWhile (fun c => c = ' ')
  let s2 := match s1 with
    | '-' :: r => r
    | '+' :: r => r
    | r => r
  let neg : Bool := match s1 with
    | '-' :: _ => true
    | _ => false
  let ip := s2.takeWhile Char.isDigit
  let rest := s2.dropWhile Char.isDigit
  let fp := match rest with
    | '.' :: r => r.takeWhile Char.isDigit
    | _ => []
  let num : Rat := (natOfDigits ip 0 : Rat) + (natOfDigits fp 0 : Rat) / ((10 : Rat) ^ fp.length)
  if neg then -num else num

/-- atol / atoi model: optional sign and integer digits; unparsable yields 0. -/
def atolModel (s : List Char) : Int :=
  let s1 := s.dropWhile (fun c => c = ' ')
  let s2 := match s1 with
    | '-' :: r => r
    | '+' :: r => r
    | r => r
  let neg : Bool := match s1 with
    | '-' :: _ => true
    | _ => false
  let v : Int := (natOfDigits (s2.takeWhile Char.isDigit) 0 : Int)
  if neg then -v else v

/-- Integer parser demanding at least one digit, for the sscanf calls of the
pin command: sscanf fails (matches fewer items) on a token without digits. -/
def parseIntOpt (s : List Char) : Option Int :=
  let s2 := match s with
    | '-' :: r => r
    | '+' :: r => r
    | r => r
  let neg : Bool := match s with
    | '-' :: _ => true
    | _ => false
  if s2 ≠ [] ∧ s2.all Char.isDigit then
    some (if neg then -(natOfDigits s2 0 : Int) else (natOfDigits s2 0 : Int))
  else none

/-- parseHomingFlags (main.cpp lines 1381-1404): empty argument string selects
every axis; otherwise a token equal to 1 or true selects the axis at its
position. -/
def parseHomingFlags (args : List Char) : Fin 5 → Bool :=
  if args = [] then fun _ => true
  else
    let toks := tokenize args
    fun i => decide (toks.getD i.val [] = ['1']) || decide (toks.getD i.val [] = "true".toList)

/-- parseMoveCommand (main.cpp lines 1413-1428): the k-th token is the target
of axis k through atof, and marks the axis active; remaining axes are
inactive (their position slot is never written by the C code and never read;
the model fills 0). -/
def parseMoveCommand (args : List Char) : (Fin 5 → FloatVal) × (Fin 5 → Bool) :=
  let toks := tokenize args
  (fun i => if i.val < toks.length then .finite (atofModel (toks.getD i.val [])) else .finite 0,
   fun i => decide (i.val < toks.length))

/-- printSystemStatus (main.cpp lines 1433-1457).  Numeric payloads elided. -/
def printSystemStatus (st : SysState) : List Line :=
  [.info "=== SYSTEM STATUS ===",
   .info ("Emergency Stop: " ++ (if st.emergencyStop then "ACTIVE" else "Inactive")),
   .info ("Motors Enabled: " ++ (if st.motorsEnabled then "Yes" else "No")),
   .info ("Homing Active: " ++ (if st.homingActive then "Yes" else "No")),
   .info ("Command In Progress: " ++ (if st.commandInProgress then "Yes" else "No")),
   .info "Motor Positions:"] ++
  (List.finRange 5).map (fun i => .info ("  " ++ (motors i).name ++ " position")) ++
  (if st.lastError ≠ .errNone then [.info "Last Error"] else [])

/-- Environment of one command dispatch: planner behaviour for a contained
move or homing operation, and the waste-pin level read by check_overflow. -/
structure CmdEnv where
  move : MoveEnv
  home : HomeEnv
  wastePin : Bool

/-- Result of processCommand. -/
structure CmdResult where
  state : SysState
  tm : TimeoutMgr
  out : List Line

/-- processCommand (main.cpp lines 1224-1373).  The weight-sensor commands
touch only the weight manager, which lies outside the modelled state; they
are represented by their serial output.  Note that no branch of the
dispatcher consults the emergency latch: each handler decides for itself. -/
def processCommand (env : CmdEnv) (now : Nat) (command : List Char)
    (st : SysState) (tm : TimeoutMgr) : CmdResult :=
  let cmd := cleanCommand command
  if cmd = "reset".toList then
    if st.emergencyStop then
      ⟨{ st with emergencyStop := false, lastError := .errNone }, tm,
       [.info "Emergency stop reset"]⟩
    else ⟨st, tm, []⟩
  else if "home".toList.isPrefixOf cmd then
    let flags := parseHomingFlags (cmd.drop 4)
    let r := homeMotors env.home now flags st tm
    ⟨r.state, r.tm, r.out⟩
  else if "move".toList.isPrefixOf cmd then
    let p := parseMoveCommand (cmd.drop 4)
    let r := coordinatedMove env.move now p.1 p.2 st tm
    ⟨r.state, r.tm, r.out⟩
  else if cmd = "status".toList then
    ⟨st, tm, printSystemStatus st⟩
  else if cmd = "help".toList then
    ⟨st, tm, [.info "=== COMMAND HELP ==="]⟩
  else if cmd = "version".toList then
    ⟨st, tm, [.info "=== SYSTEM VERSION ==="]⟩
  else if "pin".toList.isPrefixOf cmd then
    let toks := tokenize (cmd.drop 3)
    match parseIntOpt (toks.getD 0 []), parseIntOpt (toks.getD 1 []) with
    | some pinIndex, some tempState =>
      if toks.length ≥ 2 then
        if validatePinIndex pinIndex then
          let r := controlPin pinIndex (tempState ≠ 0) st
          ⟨r.1, tm, r.2⟩
        else ⟨st, tm, [.error "Invalid pin index"]⟩
      else ⟨st, tm, [.error "Invalid pin command format"]⟩
    | _, _ => ⟨st, tm, [.error "Invalid pin command format"]⟩
  else if cmd = "emergency".toList then
    ⟨emergencyStopAction st, tm, [.info "!!! EMERGENCY STOP ACTIVATED !!!"]⟩
  else if cmd = "enable".toList then
    let r := enableAllMotors st
    ⟨r.1, tm, r.2⟩
  else if cmd = "disable".toList then
    ⟨disableTemporaryMotors st, tm, []⟩
  else if cmd = "read_pins".toList then
    ⟨st, tm, [.info "INPUT_PINS"]⟩
  else if cmd = "check_overflow".toList then
    if env.wastePin then
      ⟨{ st with lastError := .reservoirOverflow }, tm,
       [.info "WARNING: Reservoir overflow detected", .info "RESERVOIR OVERFLOW DETECTED"]⟩
    else ⟨st, tm, [.info "Reservoir level normal"]⟩
  else if cmd = "start_weight".toList then
    ⟨st, tm, [.info "Weight measurement started"]⟩
  else if cmd = "stop_weight".toList then
    ⟨st, tm, [.info "Weight measurement stopped"]⟩
  else if cmd = "get_weight".toList then
    ⟨st, tm, [.info "Current weight"]⟩
  else if cmd = "zero_weight".toList then
    ⟨st, tm, [.info "Weight sensor zeroed"]⟩
  else if "calibrate_weight".toList.isPrefixOf cmd then
    ⟨st, tm, [.info "Calibrating"]⟩
  else
    ⟨st, tm, [.info "Unknown command"]⟩

end Main

/-- Whitespace trim on both ends, the Arduino String.trim(). -/
def trimChars (s : List Char) : List Char :=
  let ws := fun c => c = ' ' ∨ c = '\r' ∨ c = '\n' ∨ c = '\t'
  ((s.dropWhile ws).reverse.dropWhile ws).reverse

namespace Copy

/-! Model of src/arduino copy/src/main.cpp (the GyverPlanner revision). -/

/-- Per-motor configuration, struct MotorConfig (main.cpp lines 42-58),
kinematic fields that no theorem consults are kept as data. -/
structure CMotorConfig where
  name : String
  maxSpeed : Rat
  acceleration : Rat
  homingSpeed : Rat
  endstopTypeNPN : Bool
  powerAlwaysOn : Bool
  stepsPerUnit : Nat
  maxSteps : Nat
  homeBackoff : Nat
  preHomingBackoff : Nat
deriving DecidableEq

/-- Configuration table motorConfigs (main.cpp lines 67-158). -/
def motorConfigs : Fin 5 → CMotorConfig
  | ⟨0, _⟩ => ⟨"Multi(X)", 500, 500, 3000, false, true, 40, 16000, 1000, 1000⟩
  | ⟨1, _⟩ => ⟨"Multizone(Y)", 200, 300, 40, true, true, 80, 16000, 200, 0⟩
  | ⟨2, _⟩ => ⟨"RRight(Z)", 1000, 200, 10000, true, true, 200, 16000, 100, 60⟩
  | ⟨3, _⟩ => ⟨"E0", 2000, 2000, 2000, true, false, 200, 16000, 200, 0⟩
  | ⟨4, _⟩ => ⟨"E1", 2000, 2000, 2000, true, false, 200, 16000, 200, 0⟩

/-- Mutable state of the revision: step counters, enable lines, control pins,
and the two global flags (main.cpp lines 192-193). -/
structure CopyState where
  pos : Fin 5 → Int
  enabled : Fin 5 → Bool
  ctrlPins : Fin 10 → Bool
  motorsEnabled : Bool
  homingActive : Bool

/-- unitsToSteps (main.cpp lines 205-207): float multiply, long truncation. -/
def unitsToSteps (i : Fin 5) (units : Rat) : Int :=
  truncMulToInt units (motorConfigs i).stepsPerUnit

/-- enableMotors (main.cpp lines 242-248). -/
def enableMotors (st : CopyState) : CopyState :=
  { st with enabled := fun _ => true, motorsEnabled := true }

/-- disableMotors (main.cpp lines 253-283): deasserts the temporary motors. -/
def disableMotors (st : CopyState) : CopyState :=
  { st with
    enabled := fun i => if (motorConfigs i).powerAlwaysOn then st.enabled i else false,
    motorsEnabled := false }

/-- moveMotorsToPosition (main.cpp lines 307-387).  The movement loop
(lines 361-363) has no abort condition, so the planner runs to its targets. -/
def moveMotorsToPosition (st : CopyState) (positions : Fin 5 → Rat)
    (flags : Fin 5 → Bool) : CopyState × List Line :=
  if st.homingActive then (st, [.error "Cannot move during homing"])
  else
    let st1 := enableMotors st
    let targets : Fin 5 → Int := fun i => if flags i then unitsToSteps i (positions i) else st1.pos i
    if decide (∃ i, flags i = true ∧ targets i ≠ st1.pos i) = false then
      (disableMotors st1,
       [.info "=== COORDINATED MOVE START ===",
        .info "WARNING: All motors are already at target positions - no movement needed",
        .info "=== COORDINATED MOVE COMPLETED (NO MOVEMENT) ===",
        .complete])
    else
      let st2 := { st1 with pos := targets }
      (disableMotors st2,
       [.info "=== COORDINATED MOVE START ===",
        .info "Target set, starting movement",
        .info "=== COORDINATED MOVE COMPLETED ===",
        .complete])

/-- Environment of stepperHome: endstop levels at the phase-2 check and during
the seek loop, and the black-box planner trajectory of the seek move. -/
structure CopyHomeEnv where
  endstopStart : Fin 5 → Bool
  seekRead : Nat → Fin 5 → Bool
  seekTraj : Nat → Fin 5 → Int
  seekDone : Nat

/-- Seek loop of stepperHome (main.cpp lines 462-481), fuel-indexed: tick,
mark flagged axes of index < 4 whose switch reads triggered, break when all
flagged axes are marked or when the planner finished its move.  Returns the
exit tick and the marks.  This revision has no timeout. -/
def copySeekLoop (env : CopyHomeEnv) (flags : Fin 5 → Bool) :
    Nat → Nat → (Fin 5 → Bool) → Nat × (Fin 5 → Bool)
  | 0, k, homed => (k, homed)
  | fuel + 1, k, homed =>
    let k1 := k + 1
    let homed1 : Fin 5 → Bool := fun i =>
      homed i || (decide (i.val < 4) && flags i && env.seekRead k1 i)
    if decide (∀ i : Fin 5, i.val < 4 → flags i = true → homed1 i = true) then (k1, homed1)
    else if env.seekDone ≤ k1 then (k1, homed1)
    else copySeekLoop env flags fuel k1 homed1

/-- stepperHome (main.cpp lines 392-531): pre-backoff, move-away, seek, final
backoff, zeroing of homed axes, then planner.reset() which sets every
coordinate to zero (see the header comment), homingActive cleared, COMPLETE. -/
def stepperHome (env : CopyHomeEnv) (st : CopyState) (flags : Fin 5 → Bool) :
    CopyState × List Line :=
  let st1 := enableMotors { st with homingActive := true }
  let pre : Fin 5 → Int := fun i =>
    st1.pos i + (if decide (i.val < 4) && flags i &&
                    decide ((motorConfigs i).preHomingBackoff > 0)
                 then ((motorConfigs i).preHomingBackoff : Int) else 0)
  let needPre := decide (∃ i : Fin 5, i.val < 4 ∧ flags i = true ∧
                           (motorConfigs i).preHomingBackoff > 0)
  let st2 := if needPre then { st1 with pos := pre } else st1
  let away : Fin 5 → Int := fun i =>
    st2.pos i + (if decide (i.val < 4) && flags i && env.endstopStart i then 500 else 0)
  let needAway := decide (∃ i : Fin 5, i.val < 4 ∧ flags i = true ∧ env.endstopStart i = true)
  let st3 := if needAway then { st2 with pos := away } else st2
  let sk := copySeekLoop env flags (env.seekDone + 1) 0 (fun _ => false)
  let homed := sk.2
  let st4 := { st3 with pos := env.seekTraj sk.1 }
  let fin : Fin 5 → Int := fun i =>
    st4.pos i + (if decide (i.val < 4) && flags i && homed i &&
                    decide ((motorConfigs i).homeBackoff > 0)
                 then ((motorConfigs i).homeBackoff : Int) else 0)
  let needFin := decide (∃ i : Fin 5, i.val < 4 ∧ flags i = true ∧ homed i = true ∧
                           (motorConfigs i).homeBackoff > 0)
  let st5 := if needFin then { st4 with pos := fin } else st4
  let st6 := { st5 with pos := fun i => if decide (i.val < 4) && flags i && homed i then 0
                                        else st5.pos i }
  ({ st6 with pos := fun _ => 0, homingActive := false },
   [.info "=== TARGET-BASED HOMING PROCEDURE START ===",
    .info "Planner reset - all internal coordinates set to zero",
    .info "=== TARGET-BASED HOMING PROCEDURE COMPLETED ===",
    .complete])

/-- Environment of clampHome: the shared E0/E1 sensor level before phase 2 and
during the seek loop (both axes read the same physical pin, so one reading per
instant serves both checks), the escape-move outcome, and the black-box seek
trajectory and completion tick. -/
structure ClampEnv where
  read0 : Bool
  escapeEnd : Fin 5 → Int
  seekRead : Nat → Bool
  seekTraj : Nat → Fin 5 → Int
  seekDone : Nat

/-- Seek loop of clampHome (main.cpp lines 631-660), fuel-indexed: tick, then
the E0 check and the E1 check against the shared sensor; both marks are set in
the iteration of the first triggered reading; the loop also ends when the
planner finishes the move.  Returns the E0 mark, the E1 mark (each the tick at
which it was set) and the exit tick. -/
def clampSeek (env : ClampEnv) : Nat → Nat → Option Nat × Option Nat × Nat
  | 0, k => (none, none, k)
  | fuel + 1, k =>
    let k1 := k + 1
    if env.seekRead k1 then (some k1, some k1, k1)
    else if env.seekDone ≤ k1 then (none, none, k1)
    else clampSeek env fuel k1

/-- Result of clampHome, with the phase-4 backoff amounts applied to E0 and
to E1 exposed for the shared-endstop claims. -/
structure ClampHomeRes where
  state : CopyState
  e0Iter : Option Nat
  e1Iter : Option Nat
  backoff0 : Int
  backoff1 : Int
  out : List Line

/-- Phase-4 part of clampHome (main.cpp lines 662-734): positions at the end
of the seek, then either the equal final backoff, zeroing of both axes and
COMPLETE, or the failure report with zeroing of the marked axes only. -/
def clampHomeAfterSeek (env : ClampEnv) (st3 : CopyState)
    (sk : Option Nat × Option Nat × Nat) : ClampHomeRes :=
  let st4 := { st3 with pos := env.seekTraj sk.2.2 }
  match sk.1, sk.2.1 with
  | some m0, some m1 =>
    let b0 : Int := ((motorConfigs 3).homeBackoff : Int)
    let b1 : Int := ((motorConfigs 4).homeBackoff : Int)
    let st5 := { st4 with pos := fun i =>
                   if i.val = 3 then st4.pos i + b0
                   else if i.val = 4 then st4.pos i + b1
                   else st4.pos i }
    let st6 := { st5 with pos := fun i => if i.val = 3 ∨ i.val = 4 then 0 else st5.pos i }
    ⟨{ st6 with homingActive := false }, some m0, some m1, b0, b1,
     [.info "=== IMPROVED E0+E1 HOMING START ===",
      .info "E0 and E1 positions set to zero",
      .info "=== IMPROVED E0+E1 HOMING COMPLETED ===",
      .complete]⟩
  | o0, o1 =>
    let st5 := { st4 with pos := fun i =>
                   if i.val = 3 ∧ o0.isSome then 0
                   else if i.val = 4 ∧ o1.isSome then 0
                   else st4.pos i }
    ⟨{ st5 with homingActive := false }, o0, o1, 0, 0,
     [.info "=== IMPROVED E0+E1 HOMING START ===",
      .info "=== IMPROVED E0+E1 HOMING COMPLETED ===",
      .error "Homing failed - one or more endstops not reached",
      .error ""]⟩

/-- clampHome (main.cpp lines 536-734): pre-backoff with the maximum of the
two preHomingBackoff values (both 0 in the configuration), additional escape
when the shared sensor is already active, coordinated seek with both marks set
from the shared sensor, then the phase-4 part. -/
def clampHome (env : ClampEnv) (st : CopyState) : ClampHomeRes :=
  let st1 := enableMotors { st with homingActive := true }
  let maxPre : Int := max ((motorConfigs 3).preHomingBackoff : Int)
                          ((motorConfigs 4).preHomingBackoff : Int)
  let st2 := if 0 < maxPre then
               { st1 with pos := fun i => if 3 ≤ i.val then st1.pos i + maxPre else st1.pos i }
             else st1
  let st3 := if env.read0 then { st2 with pos := env.escapeEnd } else st2
  clampHomeAfterSeek env st3 (clampSeek env (env.seekDone + 1) 0)

/-- Argument splitting of handleStepperMove / handleStepperHome
(main.cpp lines 761-781): indexOf-based, so an empty slice between two
consecutive spaces is counted as an argument; at most five arguments. -/
def copySplitArgs : Nat → List Char → List (List Char)
  | 0, _ => []
  | n + 1, s =>
    match s.findIdx? (fun c => c = ' ') with
    | some i => s.take i :: copySplitArgs n (s.drop (i + 1))
    | none => if s = [] then [] else [s]

/-- handleStepperMove (main.cpp lines 757-790): five arguments required, a
star marks a non-participating axis, anything else goes through toFloat. -/
def handleStepperMove (st : CopyState) (args : List Char) : CopyState × List Line :=
  let argsL := copySplitArgs 5 args
  if argsL.length = 5 then
    let flags : Fin 5 → Bool := fun i => decide (trimChars (argsL.getD i.val []) ≠ ['*'])
    let positions : Fin 5 → Rat := fun i =>
      let a := trimChars (argsL.getD i.val [])
      if a = ['*'] then 0 else Main.atofModel a
    moveMotorsToPosition st positions flags
  else
    (st, [.error "Expected 5 arguments", .error ""])

/-- handleStepperHome (main.cpp lines 795-821). -/
def handleStepperHome (env : CopyHomeEnv) (st : CopyState) (args : List Char) :
    CopyState × List Line :=
  let argsL := copySplitArgs 5 args
  if argsL.length = 5 then
    let flags : Fin 5 → Bool := fun i => decide (Main.atolModel (trimChars (argsL.getD i.val [])) ≠ 0)
    stepperHome env st flags
  else
    (st, [.error "Expected 5 arguments", .error ""])

/-- handlePinOn (main.cpp lines 826-841). -/
def handlePinOn (st : CopyState) (args : List Char) : CopyState × List Line :=
  let index := Main.atolModel args
  if h : 0 ≤ index ∧ index < 10 then
    ({ st with ctrlPins := Function.update st.ctrlPins ⟨index.toNat, by omega⟩ true },
     [.info "Pin turned ON", .complete])
  else
    (st, [.error "Invalid pin index. Range: 0-9", .error ""])

/-- handlePinOff (main.cpp lines 846-861). -/
def handlePinOff (st : CopyState) (args : List Char) : CopyState × List Line :=
  let index := Main.atolModel args
  if h : 0 ≤ index ∧ index < 10 then
    ({ st with ctrlPins := Function.update st.ctrlPins ⟨index.toNat, by omega⟩ false },
     [.info "Pin turned OFF", .complete])
  else
    (st, [.error "Invalid pin index. Range: 0-9", .error ""])

/-- handleStatus output (main.cpp lines 866-932): informational lines then
COMPLETE; numeric payloads elided. -/
def handleStatusOut : List Line :=
  [.info "=== GYVER PLANNER SYSTEM STATUS ===",
   .info "Motor positions",
   .info "Home switches",
   .info "Pin configuration",
   .info "Motor power settings",
   .info "Control pins",
   .complete]

/-- handleTest (main.cpp lines 937-1015): direct pin toggling that never
touches the step counters; testSuccess is never set false, so the terminal
token is always COMPLETE. -/
def handleTest (st : CopyState) : CopyState × List Line :=
  (disableMotors (enableMotors st),
   [.info "=== COMPREHENSIVE MOTOR TEST ===",
    .info "=== TEST COMPLETED ===",
    .complete])

/-- handleUnknownCommand output (main.cpp lines 1027-1080). -/
def handleUnknownOut : List Line :=
  [.error "Unknown command",
   .info "Available commands",
   .error ""]

/-- getCommandCode (main.cpp lines 743-752). -/
def getCommandCode (cmd : List Char) : Nat :=
  if cmd = "sm".toList then 1
  else if cmd = "sh".toList then 2
  else if cmd = "pon".toList then 3
  else if cmd = "poff".toList then 4
  else if cmd = "status".toList then 5
  else if cmd = "test".toList then 6
  else if cmd = "clamph".toList then 7
  else 0

/-- Dispatch environment of the revision. -/
structure CopyEnv where
  home : CopyHomeEnv
  clamp : ClampEnv
  plannerBusyAfter : Bool

/-- parseCommand (main.cpp lines 1085-1144): trim, print RECEIVED, split the
first token, lowercase it, dispatch through getCommandCode; for every command
except status, a trailing debug line may be printed when the planner is still
busy after the handler returned. -/
def parseCommand (env : CopyEnv) (st : CopyState) (command : List Char) :
    CopyState × List Line :=
  let c := trimChars command
  let sp := c.findIdx? (fun ch => ch = ' ')
  let cmd := (match sp with | some i => c.take i | none => c).map Char.toLower
  let args := match sp with | some i => c.drop (i + 1) | none => []
  let code := getCommandCode cmd
  let d : CopyState × List Line :=
    if code = 1 then handleStepperMove st args
    else if code = 2 then handleStepperHome env.home st args
    else if code = 3 then handlePinOn st args
    else if code = 4 then handlePinOff st args
    else if code = 5 then (st, handleStatusOut)
    else if code = 6 then handleTest st
    else if code = 7 then
      let r := clampHome env.clamp st
      (r.state, r.out)
    else (st, handleUnknownOut)
  let tail := if code ≠ 5 ∧ env.plannerBusyAfter then
                [Line.info "DEBUG: Planner still busy after command completion"]
              else []
  (d.1, Line.received :: (d.2 ++ tail))

end Copy

namespace Ard

/-! Model of the modular revision: src/arduino/src/stepper_control.cpp,
src/arduino/src/commands.cpp, src/arduino/include/config.h. -/

/-- HOMING_TIMEOUT (config.h line 97), in milliseconds. -/
def HOMING_TIMEOUT : Nat := 30000

/-- State relevant to the clamp machinery: the two clamp-axis step counters
(GStepper2 getCurrent of e0Stepper and e1Stepper), their enable lines, the
Multi counter for the move_multi command, and the clampInProgress flag
(stepper_control.cpp line 19). -/
structure ArdState where
  e0pos : Int
  e1pos : Int
  e0enabled : Bool
  e1enabled : Bool
  multiPos : Int
  clampInProgress : Bool
deriving DecidableEq

/-- Environment of one blocking stepper move of the revision: whether the
move outruns its timeout, and where the axes were braked if it did.  The
libraries are external: a completed move leaves the counters at the target. -/
structure ArdMoveEnv where
  timesOut : Bool
  stopped0 : Int
  stopped1 : Int
deriving DecidableEq

/-- setStepperPosition (stepper_control.cpp lines 216-318), instantiated for
a non-clamp stepper carrying the given counter.  The function rejects a
target of exactly zero before anything else; for the E steppers it also
rejects while clampInProgress is set.  Returns the new counter on success. -/
def setStepperPosition (env : ArdMoveEnv) (stepperIsE : Bool) (position : Int)
    (cur : Int) (clampFlag : Bool) : Option Int :=
  if position = 0 then none
  else if stepperIsE ∧ clampFlag then none
  else if env.timesOut then some cur
  else some position

/-- Success predicate of setStepperPosition: the C return value. -/
def setStepperPositionOk (env : ArdMoveEnv) (stepperIsE : Bool) (position : Int)
    (cur : Int) (clampFlag : Bool) : Bool :=
  if position = 0 then false
  else if stepperIsE ∧ clampFlag then false
  else !env.timesOut

/-- handleMoveMulti (commands.cpp lines 116-138): RECEIVED, missing-argument
check, atol, rejection of a zero value, then the blocking move.  Returns the
output stream and the Multi counter after the command. -/
def handleMoveMulti (env : ArdMoveEnv) (arg : Option (List Char)) (cur : Int)
    (clampFlag : Bool) : List Line × Int :=
  match arg with
  | none => ([.received, .error "MISSING PARAMETER"], cur)
  | some a =>
    let position := Main.atolModel a
    if position = 0 then ([.received, .error "INVALID PARAMETER"], cur)
    else
      match setStepperPosition env false position cur clampFlag with
      | some p =>
        if setStepperPositionOk env false position cur clampFlag then
          ([.received, .complete], p)
        else ([.received, .error "MOVE_FAILED"], p)
      | none => ([.received, .error "MOVE_FAILED"], cur)

/-- clampMotors (stepper_control.cpp lines 476-581): reject while the flag is
set; otherwise set the flag, enable both steppers, drive both to the target
under the dynamic timeout, and clear the flag on both return paths.  E0 and
E1 are configured powerAlwaysOn (config.h lines 85 and 93), so disableStepper
leaves the enable lines asserted. -/
def clampMotors (env : ArdMoveEnv) (target : Int) (st : ArdState) :
    ArdState × Bool :=
  if st.clampInProgress then (st, false)
  else
    let st1 := { st with clampInProgress := true, e0enabled := true, e1enabled := true }
    if env.timesOut then
      ({ st1 with e0pos := env.stopped0, e1pos := env.stopped1,
                  clampInProgress := false }, false)
    else
      ({ st1 with e0pos := target, e1pos := target, clampInProgress := false }, true)

/-- Environment of clampZeroMotors: shared-sensor level at entry, whether and
where the seek toward the sensor ends (none = the 30-second bound expired
first, with the braked positions), the escape-move end positions, and whether
the backoff move to position 100 expired its 10-second bound. -/
structure ClampZeroEnv where
  read0 : Bool
  escapeEnd0 : Int
  escapeEnd1 : Int
  seekTriggered : Bool
  seekStop0 : Int
  seekStop1 : Int
  backoffTimesOut : Bool
  backoffStop0 : Int
  backoffStop1 : Int
deriving DecidableEq

/-- clampZeroMotors (stepper_control.cpp lines 583-716): reject while the flag
is set; escape if the shared sensor is active; seek toward the sensor until it
triggers (setCurrent(0) on both) or the bound expires (failure); back off both
axes to absolute position 100, with the corrective setCurrent(100) when a
counter differs; the flag is cleared on every return path.  On success both
counters hold 100. -/
def clampZeroMotors (env : ClampZeroEnv) (st : ArdState) : ArdState × Bool :=
  if st.clampInProgress then (st, false)
  else
    let st1 := { st with clampInProgress := true, e0enabled := true, e1enabled := true }
    let st2 := if env.read0 then { st1 with e0pos := env.escapeEnd0, e1pos := env.escapeEnd1 }
               else st1
    if env.seekTriggered = false then
      ({ st2 with e0pos := env.seekStop0, e1pos := env.seekStop1,
                  clampInProgress := false }, false)
    else
      let st3 := { st2 with e0pos := 0, e1pos := 0 }
      if env.backoffTimesOut then
        ({ st3 with e0pos := env.backoffStop0, e1pos := env.backoffStop1,
                    clampInProgress := false }, false)
      else
        let st4 := { st3 with e0pos := 100, e1pos := 100 }
        let st5 := if st4.e0pos ≠ 100 ∨ st4.e1pos ≠ 100 then
                     { st4 with e0pos := 100, e1pos := 100 }
                   else st4
        ({ st5 with clampInProgress := false }, true)

end Ard

/-! Concrete instances used by witnesses and counterexamples. -/

/-- Trivial move environment: the planner is ready at once. -/
def envMoveTrivial : Main.MoveEnv := ⟨0, fun _ _ => 0⟩

/-- Trivial homing environment. -/
def envHomeTrivial : Main.HomeEnv :=
  ⟨fun _ => false, fun _ _ => false, fun _ _ => 0, 0, 0, fun _ => false, fun _ _ => 0⟩

/-- Trivial dispatch environment. -/
def envCmdTrivial : Main.CmdEnv := ⟨envMoveTrivial, envHomeTrivial, false⟩

/-- Inactive timeout manager. -/
def tmIdle : Main.TimeoutMgr := ⟨0, 0, false⟩

/-- State with the emergency latch set and every output line deasserted, as
left by emergencyStop(). -/
def stEmg : Main.SysState :=
  ⟨false, false, true, .emergencyStop, false, 0, fun _ => 0, fun _ => false, fun _ => false⟩

/-- Idle state with every enable line deasserted (reachable after a completed
move deasserted the temporary axes; here all are deasserted for contrast). -/
def stNoEnable : Main.SysState :=
  ⟨false, false, false, .errNone, false, 0, fun _ => 0, fun _ => false, fun _ => false⟩

/-- Idle state in which axis 1 holds step counter 500. -/
def stAxis1At500 : Main.SysState :=
  ⟨true, false, false, .errNone, false, 0, fun i => if i.val = 1 then 500 else 0,
   fun _ => true, fun _ => false⟩

/-- Homing environment in which the axis-0 endstop triggers on the first seek
tick. -/
def envHomeC1 : Main.HomeEnv :=
  ⟨fun _ => false, fun k i => decide (1 ≤ k) && decide (i.val = 0), fun _ _ => 0, 5, 0,
   fun _ => false, fun _ _ => 0⟩

/-- Selection of axis 0 only. -/
def flagsAxis0 : Fin 5 → Bool := fun i => decide (i.val = 0)

/-- Move environment that needs 70000 ticks, longer than the 60-second bound. -/
def envMoveSlow : Main.MoveEnv := ⟨70000, fun _ _ => 1⟩

/-- Target vector asking axis 0 for 10 units. -/
def posAxis0Ten : Fin 5 → FloatVal := fun i => if i.val = 0 then .finite 10 else .finite 0

/-- Completing clamp-move environment of the modular revision. -/
def ardEnvOk : Ard.ArdMoveEnv := ⟨false, 0, 0⟩

/-- Idle modular-revision state. -/
def ardStIdle : Ard.ArdState := ⟨7, 9, false, false, 0, false⟩

/-- Modular-revision state with the clamp flag set. -/
def ardStBusy : Ard.ArdState := ⟨7, 9, false, false, 0, true⟩

/-- clamp_zero environment in which the shared sensor triggers and the backoff
completes. -/
def czEnvOk : Ard.ClampZeroEnv := ⟨false, 0, 0, true, -3, -4, false, 0, 0⟩

/-- clamph environment in which the shared sensor first reads triggered on
seek tick 2 of 6. -/
def clampEnvOk : Copy.ClampEnv := ⟨false, fun _ => 0, fun k => decide (k = 2), fun _ _ => -5, 6⟩

/-- Idle GyverPlanner-revision state. -/
def copyStIdle : Copy.CopyState := ⟨fun _ => 0, fun _ => true, fun _ => false, true, false⟩

/-- Trivial homing environment of the GyverPlanner revision. -/
def copyHomeTrivial : Copy.CopyHomeEnv := ⟨fun _ => false, fun _ _ => false, fun _ _ => 0, 0⟩

/-- Trivial dispatch environment of the GyverPlanner revision. -/
def copyEnvTrivial : Copy.CopyEnv := ⟨copyHomeTrivial, clampEnvOk, false⟩

/-! Helper lemmas. -/

/-- Seek loop of clampHome: when the shared sensor first reads triggered at
some tick after k and no later than the planner completion, the loop exits
with both marks set to that same tick. -/
theorem clampSeekFinds (env : Copy.ClampEnv) :
    ∀ (fuel k : Nat), (∃ j, k < j ∧ j ≤ env.seekDone ∧ env.seekRead j = true) →
      env.seekDone - k ≤ fuel →
      ∃ m, Copy.clampSeek env fuel k = (some m, some m, m) := by
  intro fuel
  induction fuel with
  | zero =>
    intro k h hf
    obtain ⟨j, hkj, hjd, _⟩ := h
    omega
  | succ n ih =>
    intro k h hf
    obtain ⟨j, hkj, hjd, hr⟩ := h
    by_cases h1 : env.seekRead (k + 1) = true
    · exact ⟨k + 1, by rw [Copy.clampSeek]; simp [h1]⟩
    · have hjk1 : k + 1 < j := by
        rcases Nat.lt_or_ge (k + 1) j with hlt | hge
        · exact hlt
        · have : j = k + 1 := by omega
          rw [this] at hr
          exact absurd hr h1
      have hk1 : ¬ (env.seekDone ≤ k + 1) := by omega
      obtain ⟨m, hm⟩ := ih (k + 1) ⟨j, hjk1, hjd, hr⟩ (by omega)
      refine ⟨m, ?_⟩
      rw [Copy.clampSeek]
      simp only [h1, if_false, hk1, hm]
      simp [h1, hk1, hm]

/-- The finRange-based validateMove succeeds exactly when every active axis
passes validateMotorPosition. -/
theorem validateMoveSpec (positions : Fin 5 → FloatVal) (active : Fin 5 → Bool)
    (st : Main.SysState) :
    (Main.validateMove positions active st).1 = true ↔
      ∀ i, active i = true → Main.validateMotorPosition i.val (positions i) = true := by
  unfold Main.validateMove
  rcases hf : (List.finRange 5).find?
      (fun i => active i && !(Main.validateMotorPosition i.val (positions i))) with _ | i
  · simp only [List.find?_eq_none] at hf
    simp only [true_iff]
    intro i hi
    have := hf i (List.mem_finRange i)
    simp only [Bool.and_eq_true, Bool.not_eq_true'] at this
    by_contra hne
    exact this ⟨hi, by revert hne; cases Main.validateMotorPosition i.val (positions i) <;> simp⟩
  · have hs := List.find?_some hf
    simp only [Bool.and_eq_true, Bool.not_eq_true'] at hs
    apply iff_of_false (by simp)
    intro hall
    have h2 := hall i hs.1
    rw [h2] at hs
    exact absurd hs.2 (by simp)

/-- validateMove leaves the state unchanged when every active axis is valid. -/
theorem validateMoveOfValid (positions : Fin 5 → FloatVal) (active : Fin 5 → Bool)
    (st : Main.SysState)
    (h : ∀ i, active i = true → Main.validateMotorPosition i.val (positions i) = true) :
    Main.validateMove positions active st = (true, st) := by
  unfold Main.validateMove
  rcases hf : (List.finRange 5).find?
      (fun i => active i && !(Main.validateMotorPosition i.val (positions i))) with _ | i
  · rfl
  · have hs := List.find?_some hf
    simp only [Bool.and_eq_true, Bool.not_eq_true'] at hs
    rw [h i hs.1] at hs
    exact absurd hs.2 (by simp)

/-! Claim theorems. -/

/-- C10: the clampInProgress flag is an execution guard: a call of clampMotors
or clampZeroMotors made while the flag is set returns false without commanding
motion or changing any modelled state, and whenever a call enters with the
flag clear, the flag is clear again on every return path (success, movement
timeout, seek timeout, backoff timeout). -/
theorem clampFlagGuard :
    ∀ (env : Ard.ArdMoveEnv) (envz : Ard.ClampZeroEnv) (target : Int) (st : Ard.ArdState),
      (st.clampInProgress = true →
        Ard.clampMotors env target st = (st, false) ∧
        Ard.clampZeroMotors envz st = (st, false)) ∧
      (st.clampInProgress = false →
        (Ard.clampMotors env target st).1.clampInProgress = false ∧
        (Ard.clampZeroMotors envz st).1.clampInProgress = false) := by
  intro env envz target st
  refine ⟨fun h => ⟨?_, ?_⟩, fun h => ⟨?_, ?_⟩⟩
  · simp [Ard.clampMotors, h]
  · simp [Ard.clampZeroMotors, h]
  · unfold Ard.clampMotors
    rw [h]
    simp only [Bool.false_eq_true, if_false]
    split <;> rfl
  · unfold Ard.clampZeroMotors
    rw [h]
    simp only [Bool.false_eq_true, if_false]
    split <;> split <;> first | rfl | (split <;> first | rfl | (split <;> rfl))

/-- C10 witness: a busy call is rejected unchanged; an idle call ends with the
flag clear. -/
theorem clampFlagGuard_witness :
    (Ard.clampMotors ardEnvOk 5 ardStBusy = (ardStBusy, false)) ∧
    ((Ard.clampZeroMotors czEnvOk ardStIdle).1.clampInProgress = false) :=
  ⟨((clampFlagGuard ardEnvOk czEnvOk 5 ardStBusy).1 (by decide)).1,
   ((clampFlagGuard ardEnvOk czEnvOk 5 ardStIdle).2 (by decide)).2⟩

/-- C9 amended: in the arduino_main revision a target of 0 inside the envelope
passes validateMotorPosition and is treated like any other in-envelope target,
but in the modular arduino revision setStepperPosition rejects a target of
exactly zero for every stepper, before anything else is checked. -/
theorem zeroTargetSplit :
    Main.validateMotorPosition 0 (.finite 0) = true ∧
    (∀ (env : Ard.ArdMoveEnv) (isE : Bool) (cur : Int) (flag : Bool),
      Ard.setStepperPosition env isE 0 cur flag = none) := by
  refine ⟨by decide, fun env isE cur flag => ?_⟩
  simp [Ard.setStepperPosition]

/-- C9 counterexample: the modular revision rejects the command move_multi 0
with INVALID PARAMETER and leaves the counter unchanged, although 0 lies
inside every envelope; the claim that a zero target is accepted is false for
this revision. -/
theorem zeroTargetCounterexample :
    Ard.handleMoveMulti ardEnvOk (some ['0']) 5 false =
      ([Line.received, Line.error "INVALID PARAMETER"], 5) := by
  rfl

/-- C8 amended: in the GyverPlanner revision, a clamph run whose shared
endstop first reads triggered at some seek tick no later than the planner
completion marks E0 and E1 as homed in that same iteration, applies the same
final backoff of 200 steps to both, zeroes both positions, and ends with
COMPLETE; in the modular revision, a successful clamp_zero zeroes both
counters at the sensor but finishes with both counters at position 100, not
zero. -/
theorem clampHomeShared :
    ∀ (env : Copy.ClampEnv) (st : Copy.CopyState) (envz : Ard.ClampZeroEnv)
      (st2 : Ard.ArdState),
      (∃ j, 0 < j ∧ j ≤ env.seekDone ∧ env.seekRead j = true) →
      st2.clampInProgress = false → envz.seekTriggered = true →
      envz.backoffTimesOut = false →
      ((Copy.clampHome env st).e0Iter = (Copy.clampHome env st).e1Iter ∧
       (Copy.clampHome env st).e0Iter.isSome = true ∧
       (Copy.clampHome env st).backoff0 = 200 ∧
       (Copy.clampHome env st).backoff1 = 200 ∧
       (Copy.clampHome env st).state.pos 3 = 0 ∧
       (Copy.clampHome env st).state.pos 4 = 0 ∧
       (Copy.clampHome env st).out.getLast? = some Line.complete) ∧
      ((Ard.clampZeroMotors envz st2).2 = true ∧
       (Ard.clampZeroMotors envz st2).1.e0pos = 100 ∧
       (Ard.clampZeroMotors envz st2).1.e1pos = 100) := by
  intro env st envz st2 hj hflag htrig hbo
  obtain ⟨m, hm⟩ := clampSeekFinds env (env.seekDone + 1) 0
    (by obtain ⟨j, h1, h2, h3⟩ := hj; exact ⟨j, h1, h2, h3⟩) (by omega)
  constructor
  · unfold Copy.clampHome
    rw [hm]
    exact ⟨rfl, rfl, rfl, rfl, rfl, rfl, rfl⟩
  · unfold Ard.clampZeroMotors
    rw [hflag, htrig, hbo]
    simp

/-- C8 witness: a concrete clamph run with the sensor triggering at tick 2,
and a concrete successful clamp_zero run. -/
theorem clampHomeShared_witness :
    ((Copy.clampHome clampEnvOk copyStIdle).state.pos 3 = 0 ∧
     (Copy.clampHome clampEnvOk copyStIdle).state.pos 4 = 0) ∧
    ((Ard.clampZeroMotors czEnvOk ardStIdle).1.e0pos = 100) := by
  have h := clampHomeShared clampEnvOk copyStIdle czEnvOk ardStIdle
    ⟨2, by decide, by decide, by decide⟩ (by decide) (by decide) (by decide)
  exact ⟨⟨h.1.2.2.2.2.1, h.1.2.2.2.2.2.1⟩, h.2.2.1⟩

/-- C8 counterexample: a successful clamp_zero invocation of the modular
revision returns true with both axis counters equal to 100; the claim that at
completion both current_position values equal zero is false at this input. -/
theorem clampZeroEndsAt100 :
    (Ard.clampZeroMotors ⟨false, 0, 0, true, -3, -4, false, 0, 0⟩
        ⟨7, 9, false, false, 0, false⟩).2 = true ∧
    (Ard.clampZeroMotors ⟨false, 0, 0, true, -3, -4, false, 0, 0⟩
        ⟨7, 9, false, false, 0, false⟩).1.e0pos = 100 ∧
    (Ard.clampZeroMotors ⟨false, 0, 0, true, -3, -4, false, 0, 0⟩
        ⟨7, 9, false, false, 0, false⟩).1.e1pos = 100 ∧
    (100 : Int) ≠ 0 := by decide

/-- C1 amended: once a homeMotors invocation passes its entry checks, the
cleanup call planner.reset() leaves every axis step counter at zero — homed
axes through the explicit zeroing of phase 4 and every axis, selected or not,
homed or not, through the reset; the same holds unconditionally for
stepperHome of the GyverPlanner revision.  No axis retains its previous
counter. -/
theorem homingZeroesAll :
    ∀ (env : Main.HomeEnv) (envC : Copy.CopyHomeEnv) (now : Nat) (flags : Fin 5 → Bool)
      (st : Main.SysState) (stC : Copy.CopyState) (tm : Main.TimeoutMgr),
      st.emergencyStop = false → (∃ i, flags i = true) →
      (∀ i, (Main.homeMotors env now flags st tm).state.pos i = 0) ∧
      (∀ i, (Copy.stepperHome envC stC flags).1.pos i = 0) := by
  intro env envC now flags st stC tm hE hF
  constructor
  · intro i
    unfold Main.homeMotors
    rw [hE]
    simp only [Bool.false_eq_true, if_false, decide_eq_true hF]
    rfl
  · intro i
    rfl

/-- C1 witness: homing axis 0 from a state with axis 1 at 500 ends with every
counter zero. -/
theorem homingZeroesAll_witness :
    (Main.homeMotors envHomeC1 1000 flagsAxis0 stAxis1At500 tmIdle).state.pos 1 = 0 ∧
    (Copy.stepperHome copyHomeTrivial copyStIdle flagsAxis0).1.pos 2 = 0 := by
  have h := homingZeroesAll envHomeC1 copyHomeTrivial 1000 flagsAxis0 stAxis1At500
    copyStIdle tmIdle (by decide) ⟨0, by decide⟩
  exact ⟨h.1 1, h.2 2⟩

/-- C1 counterexample: axis 1 is not selected and holds step counter 500, the
axis-0 endstop triggers, the homing completes — yet axis 1 ends at 0, not at
its previous counter, because the cleanup resets every coordinate. -/
theorem homingRetentionCounterexample :
    flagsAxis0 1 = false ∧
    stAxis1At500.pos 1 = 500 ∧
    (Main.homeMotors envHomeC1 1000 flagsAxis0 stAxis1At500 tmIdle).state.pos 1 = 0 := by
  decide

/-- dropWhile is the identity when no element satisfies the predicate. -/
theorem dropWhileFalse (p : Char → Bool) :
    ∀ (l : List Char), (∀ c ∈ l, p c = false) → l.dropWhile p = l := by
  intro l h
  cases l with
  | nil => rfl
  | cons a t =>
    rw [List.dropWhile_cons]
    simp [h a (List.mem_cons_self a t)]

/-- stripTerm removes a single trailing line feed from a terminator-free line. -/
theorem stripTermAppend (l : List Char) (h : ∀ c ∈ l, c ≠ '\n' ∧ c ≠ '\r') :
    Main.stripTerm (l ++ ['\n']) = l := by
  unfold Main.stripTerm
  rw [List.reverse_append]
  simp only [List.reverse_cons, List.reverse_nil, List.nil_append, List.singleton_append,
    List.dropWhile_cons]
  simp only [decide_eq_true_eq, List.dropWhile]
  rw [if_pos (by simp)]
  rw [dropWhileFalse _ l.reverse (by
    intro c hc
    have := h c (List.mem_reverse.mp hc)
    simp [this.1, this.2])]
  exact List.reverse_reverse l

/-- stripTerm is the identity on a terminator-free line. -/
theorem stripTermSelf (l : List Char) (h : ∀ c ∈ l, c ≠ '\n' ∧ c ≠ '\r') :
    Main.stripTerm l = l := by
  unfold Main.stripTerm
  rw [dropWhileFalse _ l.reverse (by
    intro c hc
    have := h c (List.mem_reverse.mp hc)
    simp [this.1, this.2])]
  exact List.reverse_reverse l

/-- Buffer contents after storing a byte list: everything is appended until
the cursor reaches 63, the rest is discarded. -/
theorem storeAllTake :
    ∀ (cs buf : List Char), buf.length ≤ 63 →
      Main.storeAll cs buf = buf ++ cs.take (63 - buf.length) := by
  intro cs
  induction cs with
  | nil => intro buf h; simp [Main.storeAll]
  | cons c rest ih =>
    intro buf h
    by_cases hlt : buf.length < 63
    · rw [Main.storeAll]
      have hcond : buf.length < Main.MAX_COMMAND_LENGTH - 1 := hlt
      rw [if_pos hcond]
      rw [ih (buf ++ [c]) (by rw [List.length_append]; simp; omega)]
      have hsub : 63 - buf.length = (63 - (buf ++ [c]).length) + 1 := by
        rw [List.length_append]; simp; omega
      rw [hsub, List.take_succ_cons]
      simp
    · have h63 : buf.length = 63 := by omega
      rw [Main.storeAll]
      have hcond : ¬ (buf.length < Main.MAX_COMMAND_LENGTH - 1) := hlt
      rw [if_neg hcond]
      rw [ih buf h, h63]
      simp

/-- Feeding a terminator-free byte list followed by a line feed dispatches
exactly one line: the stored bytes, with the line feed appended when the
buffer was not yet full. -/
theorem feedCharsLine :
    ∀ (cs buf : List Char), (∀ c ∈ cs, c ≠ '\n' ∧ c ≠ '\r') →
      Main.feedChars (cs ++ ['\n']) buf =
        ([], [if (Main.storeAll cs buf).length < 63 then Main.storeAll cs buf ++ ['\n']
              else Main.storeAll cs buf]) := by
  intro cs
  induction cs with
  | nil =>
    intro buf _
    simp only [List.nil_append, Main.storeAll]
    rw [Main.feedChars]
    unfold Main.feedChar
    rw [if_pos (by simp)]
    simp only []
    rw [Main.feedChars]
    by_cases hb : buf.length < 63
    · rw [if_pos (show buf.length < Main.MAX_COMMAND_LENGTH - 1 from hb), if_pos hb]
    · rw [if_neg (show ¬ buf.length < Main.MAX_COMMAND_LENGTH - 1 from hb), if_neg hb]
  | cons c rest ih =>
    intro buf h
    have hc := h c (List.mem_cons_self c rest)
    rw [List.cons_append, Main.feedChars]
    unfold Main.feedChar
    rw [if_neg (by simp [hc.1, hc.2])]
    simp only []
    rw [ih _ (fun x hx => h x (List.mem_cons_of_mem c hx))]
    rw [Main.storeAll]

/-- C4 amended: a line of at most MAX_COMMAND_LENGTH - 1 = 63 bytes followed
by a terminator is dispatched intact (the stored bytes, after removing the
stored terminator, are exactly the line); a longer line is not dropped and no
BufferOverflow is raised — the bytes past the 63rd are silently discarded and
the truncated 63-byte line is still dispatched. -/
theorem lineReaderBehaviour :
    ∀ (line : List Char), (∀ c ∈ line, c ≠ '\n' ∧ c ≠ '\r') →
      (line.length ≤ 63 →
        (Main.feedChars (line ++ ['\n']) []).2.map Main.stripTerm = [line]) ∧
      (63 < line.length →
        (Main.feedChars (line ++ ['\n']) []).2 = [line.take 63]) := by
  intro line h
  have hstore : Main.storeAll line [] = line.take 63 := by
    rw [storeAllTake line [] (by simp)]
    simp
  constructor
  · intro hlen
    rw [feedCharsLine line [] h, hstore]
    have htake : line.take 63 = line := List.take_of_length_le hlen
    rw [htake]
    by_cases hlt : line.length < 63
    · rw [if_pos hlt]
      simp only [List.map]
      rw [stripTermAppend line h]
    · rw [if_neg hlt]
      simp only [List.map]
      rw [stripTermSelf line h]
  · intro hlen
    rw [feedCharsLine line [] h, hstore]
    rw [if_neg (by rw [List.length_take]; omega)]

/-- C4 witness: a 2-byte line is dispatched intact; a 64-byte line is still
dispatched, truncated. -/
theorem lineReaderBehaviour_witness :
    (Main.feedChars (['a', 'b'] ++ ['\n']) []).2.map Main.stripTerm = [['a', 'b']] ∧
    (Main.feedChars (List.replicate 64 'a' ++ ['\n']) []).2 =
      [(List.replicate 64 'a').take 63] :=
  ⟨(lineReaderBehaviour ['a', 'b'] (by decide)).1 (by decide),
   (lineReaderBehaviour (List.replicate 64 'a') (by decide)).2 (by decide)⟩

/-- C4 counterexample: after a 64-byte line and its terminator, the reader has
dispatched one line (the current line was not dropped) consisting of the first
63 bytes, and the model raises no BufferOverflow anywhere — refuting the claim
that the 64th byte causes a BufferOverflow report and the loss of the line. -/
theorem lineReaderCounterexample :
    (Main.feedChars (List.replicate 64 'a' ++ ['\n']) []).2 = [List.replicate 63 'a'] ∧
    (List.replicate 63 'a' : List Char) ≠ List.replicate 64 'a' := by
  constructor
  · decide
  · decide

/-- validateMove fails and records InvalidPosition when some active axis is
invalid. -/
theorem validateMoveOfInvalid (positions : Fin 5 → FloatVal) (active : Fin 5 → Bool)
    (st : Main.SysState)
    (h : ¬ ∀ i, active i = true → Main.validateMotorPosition i.val (positions i) = true) :
    Main.validateMove positions active st = (false, { st with lastError := .invalidPosition }) := by
  unfold Main.validateMove
  rcases hf : (List.finRange 5).find?
      (fun i => active i && !(Main.validateMotorPosition i.val (positions i))) with _ | i
  · exfalso
    apply h
    simp only [List.find?_eq_none] at hf
    intro i hi
    have := hf i (List.mem_finRange i)
    simp only [Bool.and_eq_true, Bool.not_eq_true'] at this
    by_contra hne
    exact this ⟨hi, by revert hne; cases Main.validateMotorPosition i.val (positions i) <;> simp⟩
  · rfl

/-- The planner-engaged part of a move ends finished or aborted. -/
theorem coordinatedMoveRunCases (env : Main.MoveEnv) (now : Nat) (st3 : Main.SysState)
    (tm1 : Main.TimeoutMgr) (outPre : List Line) :
    (Main.coordinatedMoveRun env now st3 tm1 outPre).outcome = .finished ∨
    (Main.coordinatedMoveRun env now st3 tm1 outPre).outcome = .aborted := by
  simp only [Main.coordinatedMoveRun]
  split
  · left; rfl
  · right; rfl

/-- With clear latches and a fully valid request, coordinatedMove never
rejects: its outcome is noMovement, finished or aborted. -/
theorem coordinatedMoveValidCases (env : Main.MoveEnv) (now : Nat)
    (positions : Fin 5 → FloatVal) (active : Fin 5 → Bool) (st : Main.SysState)
    (tm : Main.TimeoutMgr) (hE : st.emergencyStop = false) (hH : st.homingActive = false)
    (hv : ∀ i, active i = true → Main.validateMotorPosition i.val (positions i) = true) :
    (Main.coordinatedMove env now positions active st tm).outcome = .noMovement ∨
    (Main.coordinatedMove env now positions active st tm).outcome = .finished ∨
    (Main.coordinatedMove env now positions active st tm).outcome = .aborted := by
  simp only [Main.coordinatedMove, hE, hH, validateMoveOfValid positions active st hv]
  norm_num
  split
  · left; rfl
  · right
    apply coordinatedMoveRunCases

/-- With clear latches and an invalid active target, coordinatedMove rejects
with InvalidPosition, engages no planner, and changes no position. -/
theorem coordinatedMoveInvalid (env : Main.MoveEnv) (now : Nat)
    (positions : Fin 5 → FloatVal) (active : Fin 5 → Bool) (st : Main.SysState)
    (tm : Main.TimeoutMgr) (hE : st.emergencyStop = false) (hH : st.homingActive = false)
    (hv : ¬ ∀ i, active i = true → Main.validateMotorPosition i.val (positions i) = true) :
    Main.coordinatedMove env now positions active st tm =
      ⟨{ st with lastError := .invalidPosition }, tm, .rejectedInvalid, false, false,
       [.error "Invalid position"]⟩ := by
  simp only [Main.coordinatedMove, hE, hH, validateMoveOfInvalid positions active st hv]
  norm_num

/-- C2: with no emergency latched and no homing running, a move request is
accepted exactly when every participating target is finite and inside its
closed envelope (both endpoints valid through validateMotorPosition); a
rejected request records InvalidPosition, never engages the planner, and
leaves every step counter unchanged. -/
theorem moveValidation :
    ∀ (env : Main.MoveEnv) (now : Nat) (st : Main.SysState) (tm : Main.TimeoutMgr)
      (positions : Fin 5 → FloatVal) (active : Fin 5 → Bool),
      st.emergencyStop = false → st.homingActive = false →
      (((Main.coordinatedMove env now positions active st tm).outcome = .rejectedEmergency ∨
        (Main.coordinatedMove env now positions active st tm).outcome = .rejectedHoming ∨
        (Main.coordinatedMove env now positions active st tm).outcome = .rejectedInvalid) ↔
        ¬ (∀ i, active i = true → Main.validateMotorPosition i.val (positions i) = true)) ∧
      ((Main.coordinatedMove env now positions active st tm).outcome = .rejectedInvalid →
        (Main.coordinatedMove env now positions active st tm).state.pos = st.pos ∧
        (Main.coordinatedMove env now positions active st tm).plannerStarted = false ∧
        (Main.coordinatedMove env now positions active st tm).state.lastError =
          .invalidPosition) := by
  intro env now st tm positions active hE hH
  by_cases hv : ∀ i, active i = true → Main.validateMotorPosition i.val (positions i) = true
  · constructor
    · apply iff_of_false
      · intro hrej
        rcases coordinatedMoveValidCases env now positions active st tm hE hH hv with
          h | h | h <;> rcases hrej with h2 | h2 | h2 <;> rw [h] at h2 <;> exact absurd h2 (by decide)
      · exact fun hn => hn hv
    · intro hrej
      rcases coordinatedMoveValidCases env now positions active st tm hE hH hv with
        h | h | h <;> rw [h] at hrej <;> exact absurd hrej (by decide)
  · rw [coordinatedMoveInvalid env now positions active st tm hE hH hv]
    constructor
    · apply iff_of_true
      · right; right; rfl
      · exact hv
    · intro _
      exact ⟨rfl, rfl, rfl⟩

/-- C2 witness: an out-of-envelope target (300 units on every axis) is
rejected, which matches the right side of the equivalence. -/
theorem moveValidation_witness :
    ((Main.coordinatedMove envMoveTrivial 0 (fun _ => .finite 300) (fun _ => true)
        Main.bootState tmIdle).outcome = .rejectedEmergency ∨
     (Main.coordinatedMove envMoveTrivial 0 (fun _ => .finite 300) (fun _ => true)
        Main.bootState tmIdle).outcome = .rejectedHoming ∨
     (Main.coordinatedMove envMoveTrivial 0 (fun _ => .finite 300) (fun _ => true)
        Main.bootState tmIdle).outcome = .rejectedInvalid) ↔
    ¬ (∀ i, (fun _ : Fin 5 => true) i = true →
        Main.validateMotorPosition i.val ((fun _ : Fin 5 => FloatVal.finite 300) i) = true) :=
  (moveValidation envMoveTrivial 0 Main.bootState tmIdle
    (fun _ => .finite 300) (fun _ => true) rfl rfl).1

/-- C6 amended: a move whose participating targets all equal the current step
counters completes as a no-op for motion — the planner is never engaged, no
pulse is emitted, every counter is unchanged and COMPLETE is printed — but it
does touch the enable lines: enableAllMotors asserts all five before the
no-movement test, and this return path never deasserts the temporary axes. -/
theorem noOpMove :
    ∀ (env : Main.MoveEnv) (now : Nat) (st : Main.SysState) (tm : Main.TimeoutMgr)
      (positions : Fin 5 → FloatVal) (active : Fin 5 → Bool),
      st.emergencyStop = false → st.homingActive = false →
      (∀ i, active i = true → Main.validateMotorPosition i.val (positions i) = true) →
      (∀ i, active i = true → Main.toSteps i (positions i) = st.pos i) →
      (Main.coordinatedMove env now positions active st tm).outcome = .noMovement ∧
      (Main.coordinatedMove env now positions active st tm).plannerStarted = false ∧
      (Main.coordinatedMove env now positions active st tm).state.pos = st.pos ∧
      (Main.coordinatedMove env now positions active st tm).state.enabled = (fun _ => true) ∧
      Line.complete ∈ (Main.coordinatedMove env now positions active st tm).out := by
  intro env now st tm positions active hE hH hv hz
  have hmov : ∀ x : Fin 5, active x = true →
      Main.moveTargets positions active st.pos x = st.pos x := by
    intro i hi
    simp [Main.moveTargets, hi, hz i hi]
  simp only [Main.coordinatedMove, Main.enableAllMotors, hE, hH,
    validateMoveOfValid positions active st hv]
  norm_num
  rw [if_pos hmov]
  exact ⟨rfl, rfl, rfl, rfl, by simp⟩

/-- C6 witness: a move to the current position (all targets 0) from the boot
state is a no-op with every enable line asserted afterwards. -/
theorem noOpMove_witness :
    (Main.coordinatedMove envMoveTrivial 0 (fun _ => .finite 0) (fun _ => true)
        Main.bootState tmIdle).outcome = .noMovement ∧
    (Main.coordinatedMove envMoveTrivial 0 (fun _ => .finite 0) (fun _ => true)
        Main.bootState tmIdle).state.enabled = (fun _ => true) := by
  have h := noOpMove envMoveTrivial 0 Main.bootState tmIdle (fun _ => .finite 0)
    (fun _ => true) rfl rfl (by decide) (by decide)
  exact ⟨h.1, h.2.2.2.1⟩

/-- C6 counterexample: in a reachable idle state whose temporary axes have
their enable lines deasserted, a move to the current position asserts the
enable line of axis 3 — the enable lines are touched, refuting the claim that
a no-op move performs no enable-line transitions. -/
theorem noOpMoveCounterexample :
    stNoEnable.enabled 3 = false ∧
    (Main.coordinatedMove envMoveTrivial 0 (fun _ => .finite 0)
        (fun i => decide (i.val = 3)) stNoEnable tmIdle).outcome = .noMovement ∧
    (Main.coordinatedMove envMoveTrivial 0 (fun _ => .finite 0)
        (fun i => decide (i.val = 3)) stNoEnable tmIdle).state.enabled 3 = true := by
  decide

/-- checkEmergency does nothing while both the watchdog window and the
operation timeout are unexpired. -/
theorem checkEmergencyNoop (st : Main.SysState) (tm : Main.TimeoutMgr) (now : Nat)
    (h2 : now - st.lastActivityTime ≤ Main.WATCHDOG_TIMEOUT_MS)
    (h3 : Main.isTimeoutExpired tm now = false) :
    Main.checkEmergency st tm now = st := by
  unfold Main.checkEmergency
  rw [if_neg (Nat.not_lt.mpr h2), h3]
  simp

/-- Movement loop under a planner that needs more than 60001 ticks: the loop
reaches the expiry check, brakes and returns unfinished, and the emergency
flag is still clear — the in-loop checkEmergency never fires because the
abort check returns first. -/
theorem moveLoopTimeoutAux (env : Main.MoveEnv) (start : Nat)
    (hD : 60001 ≤ env.duration) :
    ∀ (fuel k : Nat) (st : Main.SysState), st.emergencyStop = false →
      st.lastActivityTime = start → k ≤ 60000 → 60001 - k ≤ fuel →
      (Main.moveLoop env start ⟨start, Main.MOVE_TIMEOUT_MS, true⟩ fuel k st).2 =
        (false, true) ∧
      (Main.moveLoop env start ⟨start, Main.MOVE_TIMEOUT_MS, true⟩ fuel k st).1.emergencyStop
        = false := by
  intro fuel
  induction fuel with
  | zero => intro k st hE hA hk hf; omega
  | succ n ih =>
    intro k st hE hA hk hf
    have hdur : ¬ (env.duration ≤ k) := by omega
    by_cases hkk : k = 60000
    · subst hkk
      have hex : Main.isTimeoutExpired ⟨start, Main.MOVE_TIMEOUT_MS, true⟩
          (start + 60000 + 1) = true := by
        simp only [Main.isTimeoutExpired, Main.MOVE_TIMEOUT_MS, Bool.true_and,
          decide_eq_true_eq]
        omega
      simp only [Main.moveLoop]
      rw [if_neg hdur]
      simp [hex, hE]
    · have hnex : Main.isTimeoutExpired ⟨start, Main.MOVE_TIMEOUT_MS, true⟩
          (start + k + 1) = false := by
        simp only [Main.isTimeoutExpired, Main.MOVE_TIMEOUT_MS, Bool.true_and,
          decide_eq_false_iff_not]
        omega
      have hnoop : Main.checkEmergency
          { st with emergencyStop := false, pos := env.traj (k + 1) }
          ⟨start, Main.MOVE_TIMEOUT_MS, true⟩ (start + k + 1) =
          { st with emergencyStop := false, pos := env.traj (k + 1) } := by
        apply checkEmergencyNoop
        · show start + k + 1 - st.lastActivityTime ≤ Main.WATCHDOG_TIMEOUT_MS
          rw [hA]
          simp only [Main.WATCHDOG_TIMEOUT_MS]
          omega
        · exact hnex
      have ihr := ih (k + 1) { st with emergencyStop := false, pos := env.traj (k + 1) }
        rfl hA (by omega) (by omega)
      simp only [Main.moveLoop]
      rw [if_neg hdur]
      simp only [hE, hnex, Bool.false_or, Bool.false_eq_true, if_false, hnoop, ite_self]
      exact ihr

/-- The planner-engaged part of a move whose planner outlives the 60-second
bound aborts with a brake and without latching the emergency flag. -/
theorem coordinatedMoveRunTimeout (env : Main.MoveEnv) (now : Nat)
    (st3 : Main.SysState) (outPre : List Line) (hE3 : st3.emergencyStop = false)
    (hA3 : st3.lastActivityTime = now) (hD : 60001 ≤ env.duration) :
    (Main.coordinatedMoveRun env now st3 ⟨now, Main.MOVE_TIMEOUT_MS, true⟩ outPre).outcome
      = .aborted ∧
    (Main.coordinatedMoveRun env now st3 ⟨now, Main.MOVE_TIMEOUT_MS, true⟩ outPre).braked
      = true ∧
    (Main.coordinatedMoveRun env now st3
        ⟨now, Main.MOVE_TIMEOUT_MS, true⟩ outPre).state.emergencyStop = false := by
  have h2 := moveLoopTimeoutAux env now hD (env.duration + Main.MOVE_TIMEOUT_MS + 2) 0
    st3 hE3 hA3 (by omega) (by simp only [Main.MOVE_TIMEOUT_MS]; omega)
  simp only [Main.coordinatedMoveRun, h2.1]
  norm_num
  exact h2.2

/-- C7: a move whose planner outlives the 60-second bound is braked and
aborted, but state.emergencyStop remains false — the in-loop expiry check
returns (and deactivates the timeout) before checkEmergency can latch, so no
timeout ever sets the emergency latch; the claim that the latch becomes true
on expiry does not hold of the code. -/
theorem moveTimeoutNoLatch :
    ∀ (env : Main.MoveEnv) (now : Nat) (st : Main.SysState) (tm : Main.TimeoutMgr)
      (positions : Fin 5 → FloatVal) (active : Fin 5 → Bool),
      st.emergencyStop = false → st.homingActive = false →
      (∀ i, active i = true → Main.validateMotorPosition i.val (positions i) = true) →
      (∃ i, active i = true ∧ Main.toSteps i (positions i) ≠ st.pos i) →
      60001 ≤ env.duration →
      (Main.coordinatedMove env now positions active st tm).outcome = .aborted ∧
      (Main.coordinatedMove env now positions active st tm).braked = true ∧
      (Main.coordinatedMove env now positions active st tm).state.emergencyStop = false := by
  intro env now st tm positions active hE hH hv hmv hD
  have hmovT : ¬ ∀ x : Fin 5, active x = true →
      Main.moveTargets positions active st.pos x = st.pos x := by
    intro hall
    obtain ⟨i, hi, hne⟩ := hmv
    have h1 := hall i hi
    rw [Main.moveTargets] at h1
    simp only [hi, if_pos] at h1
    exact hne h1
  simp only [Main.coordinatedMove, Main.enableAllMotors, hE, hH,
    validateMoveOfValid positions active st hv]
  norm_num
  rw [if_neg hmovT]
  exact coordinatedMoveRunTimeout env now _ _ rfl rfl hD

/-- C7 witness: a concrete planner needing 70000 ticks, moving axis 0 to 10
units from the boot state. -/
theorem moveTimeoutNoLatch_witness :
    (Main.coordinatedMove envMoveSlow 0 posAxis0Ten (fun i => decide (i.val = 0))
        Main.bootState tmIdle).outcome = .aborted ∧
    (Main.coordinatedMove envMoveSlow 0 posAxis0Ten (fun i => decide (i.val = 0))
        Main.bootState tmIdle).braked = true ∧
    (Main.coordinatedMove envMoveSlow 0 posAxis0Ten (fun i => decide (i.val = 0))
        Main.bootState tmIdle).state.emergencyStop = false :=
  moveTimeoutNoLatch envMoveSlow 0 Main.bootState tmIdle posAxis0Ten
    (fun i => decide (i.val = 0)) rfl rfl (by decide)
    ⟨0, by decide, by decide⟩ (by decide)

/-- Dispatch equation: the move command routes the parsed request to
coordinatedMove. -/
theorem dispatchMoveCmd (env : Main.CmdEnv) (now : Nat) (st : Main.SysState)
    (tm : Main.TimeoutMgr) :
    Main.processCommand env now ("move 10 0 0 0 0".toList) st tm =
      (let p := Main.parseMoveCommand ((Main.cleanCommand ("move 10 0 0 0 0".toList)).drop 4)
       let r := Main.coordinatedMove env.move now p.1 p.2 st tm
       ⟨r.state, r.tm, r.out⟩) := rfl

/-- Dispatch equation: the home command routes the parsed flags to
homeMotors. -/
theorem dispatchHomeCmd (env : Main.CmdEnv) (now : Nat) (st : Main.SysState)
    (tm : Main.TimeoutMgr) :
    Main.processCommand env now ("home 1 0 0 0 0".toList) st tm =
      (let flags := Main.parseHomingFlags ((Main.cleanCommand ("home 1 0 0 0 0".toList)).drop 4)
       let r := Main.homeMotors env.home now flags st tm
       ⟨r.state, r.tm, r.out⟩) := rfl

/-- Dispatch equation: the enable command routes to enableAllMotors. -/
theorem dispatchEnableCmd (env : Main.CmdEnv) (now : Nat) (st : Main.SysState)
    (tm : Main.TimeoutMgr) :
    Main.processCommand env now ("enable".toList) st tm =
      ⟨(Main.enableAllMotors st).1, tm, (Main.enableAllMotors st).2⟩ := rfl

/-- Dispatch equation: pin 0 1 routes to controlPin 0 true, with no consult of
the emergency latch anywhere on the way. -/
theorem dispatchPinCmd (env : Main.CmdEnv) (now : Nat) (st : Main.SysState)
    (tm : Main.TimeoutMgr) :
    Main.processCommand env now ("pin 0 1".toList) st tm =
      ⟨(Main.controlPin 0 true st).1, tm, (Main.controlPin 0 true st).2⟩ := rfl

/-- C3 amended: with the emergency latch set, the motion commands move and
home and the enable command are refused (error line, state unchanged), but
the dispatcher has no global emergency gate: a pin command is executed as
usual — it drives the control pin and reports success with no EmergencyStop
error — and likewise the other non-motion handlers run normally. -/
theorem emergencyGate :
    ∀ (env : Main.CmdEnv) (now : Nat) (st : Main.SysState) (tm : Main.TimeoutMgr),
      st.emergencyStop = true →
      ((Main.processCommand env now ("move 10 0 0 0 0".toList) st tm).state = st ∧
       (Main.processCommand env now ("move 10 0 0 0 0".toList) st tm).out =
         [.error "Emergency stop active"]) ∧
      ((Main.processCommand env now ("home 1 0 0 0 0".toList) st tm).state = st ∧
       (Main.processCommand env now ("home 1 0 0 0 0".toList) st tm).out =
         [.error "Emergency stop active"]) ∧
      ((Main.processCommand env now ("enable".toList) st tm).state = st ∧
       (Main.processCommand env now ("enable".toList) st tm).out =
         [.error "Cannot enable motors - emergency stop active"]) ∧
      ((Main.processCommand env now ("pin 0 1".toList) st tm).state.ctrlPins 0 = true ∧
       terminalCount (Main.processCommand env now ("pin 0 1".toList) st tm).out = 0) := by
  intro env now st tm h
  refine ⟨?_, ?_, ?_, ?_⟩
  · rw [dispatchMoveCmd]
    simp [Main.coordinatedMove, h]
  · rw [dispatchHomeCmd]
    simp [Main.homeMotors, h]
  · rw [dispatchEnableCmd]
    simp [Main.enableAllMotors, h]
  · rw [dispatchPinCmd]
    constructor
    · show (Main.controlPin 0 true st).1.ctrlPins 0 = true
      simp [Main.controlPin]
    · show terminalCount (Main.controlPin 0 true st).2 = 0
      simp [Main.controlPin, terminalCount, Line.isTerminal]

/-- C3 witness: the gate behaviour at the concrete latched state. -/
theorem emergencyGate_witness :
    (Main.processCommand envCmdTrivial 0 ("move 10 0 0 0 0".toList) stEmg tmIdle).state
      = stEmg ∧
    (Main.processCommand envCmdTrivial 0 ("pin 0 1".toList) stEmg tmIdle).state.ctrlPins 0
      = true := by
  have h := emergencyGate envCmdTrivial 0 stEmg tmIdle (by decide)
  exact ⟨h.1.1, h.2.2.2.1⟩

/-- C3 counterexample: with the latch set, the command pin 0 1 changes a
control pin from LOW to HIGH and its response carries no ERROR token at all —
the claim that every non-reset command is rejected with ERROR: EmergencyStop
and causes no pin change is false at this input. -/
theorem emergencyGateCounterexample :
    stEmg.emergencyStop = true ∧
    stEmg.ctrlPins 0 = false ∧
    (Main.processCommand envCmdTrivial 0 ("pin 0 1".toList) stEmg tmIdle).state.ctrlPins 0
      = true ∧
    terminalCount (Main.processCommand envCmdTrivial 0 ("pin 0 1".toList) stEmg tmIdle).out
      = 0 := by
  decide

/-- C5 amended: in the GyverPlanner revision every response stream begins
with RECEIVED before anything else; a successful command such as status emits
exactly one terminal token, but a failed parse (pon with index 99) emits an
ERROR diagnostic and then a bare ERROR — two terminal-shaped lines, not one.
The arduino_main revision emits no RECEIVED at all (see the counterexample). -/
theorem responseProtocol :
    ∀ (env : Copy.CopyEnv) (st : Copy.CopyState) (command : List Char),
      ((Copy.parseCommand env st command).2.head? = some Line.received) ∧
      (terminalCount (Copy.parseCommand env st ("status".toList)).2 = 1) ∧
      (terminalCount (Copy.parseCommand env st ("pon 99".toList)).2 = 2) := by
  intro env st command
  refine ⟨rfl, rfl, ?_⟩
  rcases env with ⟨home, clamp, busy⟩
  cases busy
  · rfl
  · rfl

/-- C5 counterexample: in the arduino_main revision, the accepted command
status produces a response containing no RECEIVED and no terminal token at
all — refuting the claim that every accepted command is bracketed by
RECEIVED and exactly one terminal token. -/
theorem responseProtocolCounterexample :
    Line.received ∉ (Main.processCommand envCmdTrivial 0 ("status".toList)
      Main.bootState tmIdle).out ∧
    terminalCount (Main.processCommand envCmdTrivial 0 ("status".toList)
      Main.bootState tmIdle).out = 0 := by
  decide
